import Mathlib

/-!
Verification of the multi-agent orchestration layer of `gringo-ai-os`
(`multi_agent_orchestrator.py`): agent registry, process runner
(`spawn_agent`), parallel dispatcher (`orchestrate_parallel`), pipeline
engine (`run_feature_pipeline`) and result aggregator (`get_summary`).

The Python code is shallowly embedded: the ambient effects of the source
are passed explicitly.  `os.path.exists` becomes a predicate
`fs : String → Bool`; the outcome of `subprocess.run` on a given script
and argument becomes an oracle `proc : String → String → ProcOutcome`;
`json.dumps` becomes `dumps`; the completion order produced by
`as_completed` becomes a reordering function `sched`.  Python exceptions
are modelled with `Except PyExn`; a function that can only be observed
to return normally is one that always produces `.ok`.  The wall-clock
`timestamp` field of `AgentResult` (from `datetime.now()`) is omitted:
no claim concerns it.  Calls to `print` are ignored.
-/

namespace GringoOS

/-- `AgentResult.__init__` (multi_agent_orchestrator.py lines 14-20):
agent name, success flag, captured output and artifact list (defaulting
to the empty list).  The wall-clock `timestamp` is omitted. -/
structure AgentResult where
  agent_name : String
  success : Bool
  output : String
  artifacts : List String
deriving Repr, DecidableEq

/-- The per-agent record stored by `register_agent` (lines 30-34):
`{"script": …, "description": …, "active": os.path.exists(script)}`. -/
structure AgentInfo where
  script : String
  description : String
  active : Bool
deriving Repr, DecidableEq

/-- Possible outcomes of one `subprocess.run` call, as seen by the
caller: the launch raised some exception with a message, the call
raised `subprocess.TimeoutExpired`, or the child exited with a return
code and captured stdout/stderr. -/
inductive ProcOutcome where
  | raisesExc (msg : String)
  | timesOut
  | exits (returncode : Int) (stdout stderr : String)
deriving Repr, DecidableEq

/-- The Python exceptions relevant to the orchestrator:
`subprocess.TimeoutExpired`, `ValueError` (from
`ThreadPoolExecutor(max_workers=0)`), and any other `Exception`. -/
inductive PyExn where
  | timeoutExpired (msg : String)
  | valueError (msg : String)
  | otherExc (msg : String)
deriving Repr, DecidableEq

/-- `str(e)` for a modelled Python exception. -/
def PyExn.msg : PyExn → String
  | .timeoutExpired m => m
  | .valueError m => m
  | .otherExc m => m

/-- Whether a modelled Python call returned normally. -/
def exceptOk {ε α : Type} : Except ε α → Bool
  | .ok _ => true
  | .error _ => false

/-- A record of one `subprocess.run` invocation: the script launched,
the serialized task argument, and the `timeout=` value passed
(line 53 passes the literal `60`). -/
structure SpawnCall where
  script : String
  arg : String
  timeoutSeconds : Nat
deriving Repr, DecidableEq

/-- One task dictionary `{"agent": …, "data": …}` as consumed by
`orchestrate_parallel` (line 76). -/
structure TaskReq (Payload : Type) where
  agent : String
  data : Payload
deriving Repr, DecidableEq

/-- The ambient environment of the orchestrator, made explicit:
`fs` is `os.path.exists`, `proc` gives the outcome of `subprocess.run`
for a (script, serialized-argument) pair, `dumps` is `json.dumps`, and
`sched` is the reordering of a task batch realized by `as_completed`
(an arbitrary function; theorems that need it to be a permutation say
so). -/
structure Env (Payload : Type) where
  fs : String → Bool
  proc : String → String → ProcOutcome
  dumps : Payload → String
  sched : List (TaskReq Payload) → List (TaskReq Payload)

/-- The mutable state of a `MultiAgentOrchestrator` instance
(lines 23-26): workspace path, the agent registry dict (as an
association list preserving insertion order) and the result history. -/
structure MultiAgentOrchestrator where
  workspace_path : String
  agents : List (String × AgentInfo)
  results : List AgentResult
deriving Repr, DecidableEq

/-- `self.agents[name]` lookup in the registry dict. -/
def lookupAgent (m : List (String × AgentInfo)) (k : String) : Option AgentInfo :=
  match m with
  | [] => none
  | (k2, v) :: rest => if k2 = k then some v else lookupAgent rest k

/-- `self.agents[name] = value`: dict assignment, overwriting an
existing entry for the same key (last write wins) or appending. -/
def setAgent (m : List (String × AgentInfo)) (k : String) (v : AgentInfo) :
    List (String × AgentInfo) :=
  match m with
  | [] => [(k, v)]
  | (k2, v2) :: rest => if k2 = k then (k, v) :: rest else (k2, v2) :: setAgent rest k v

/-- `register_agent` (lines 28-34): store the script path, description
and an `active` flag computed once, as `os.path.exists(script_path)` at
registration time. -/
def register_agent (fs : String → Bool) (o : MultiAgentOrchestrator)
    (name script_path description : String) : MultiAgentOrchestrator :=
  { o with agents := setAgent o.agents name ⟨script_path, description, fs script_path⟩ }

/-- The body of the `try:` block of `spawn_agent` (lines 47-60): run
the subprocess; a launch exception or `TimeoutExpired` propagates as a
raised exception, a completed child is mapped on its return code. -/
def spawnTryBody (proc : String → String → ProcOutcome)
    (script task_json agent_name : String) : Except PyExn AgentResult :=
  match proc script task_json with
  | .raisesExc msg => .error (.otherExc msg)
  | .timesOut => .error (.timeoutExpired "Command timed out after 60 seconds")
  | .exits returncode stdout stderr =>
      if returncode = 0 then
        .ok ⟨agent_name, true, stdout, []⟩
      else
        .ok ⟨agent_name, false, stderr, []⟩

/-- `spawn_agent` (lines 36-67).  Returns the `AgentResult` together
with the list of `subprocess.run` invocations performed (the
instrumentation needed to state the short-circuit and timeout claims).
The `Except` layer records whether a Python exception escapes to the
caller; the two `except` clauses (lines 62-67) catch `TimeoutExpired`
first and then any `Exception`. -/
def spawn_agent {Payload : Type} (env : Env Payload) (o : MultiAgentOrchestrator)
    (agent_name : String) (task_data : Payload) :
    Except PyExn (AgentResult × List SpawnCall) :=
  match lookupAgent o.agents agent_name with
  | none => .ok (⟨agent_name, false, "Agent " ++ agent_name ++ " not registered", []⟩, [])
  | some agent_info =>
      if agent_info.active then
        match spawnTryBody env.proc agent_info.script (env.dumps task_data) agent_name with
        | .ok r => .ok (r, [⟨agent_info.script, env.dumps task_data, 60⟩])
        | .error (.timeoutExpired _) =>
            .ok (⟨agent_name, false, "Agent execution timeout", []⟩,
                 [⟨agent_info.script, env.dumps task_data, 60⟩])
        | .error e =>
            .ok (⟨agent_name, false, e.msg, []⟩,
                 [⟨agent_info.script, env.dumps task_data, 60⟩])
      else
        .ok (⟨agent_name, false,
              "Agent script " ++ agent_info.script ++ " not found", []⟩, [])

/-- The worker-pool size of `orchestrate_parallel` (line 74):
`ThreadPoolExecutor(max_workers=min(len(tasks), 4))`. -/
def max_workers (n : Nat) : Nat := min n 4

/-- The `as_completed` collection loop of `orchestrate_parallel`
(lines 80-82): take each future's result in completion order;
`future.result()` re-raises any exception the submitted call raised. -/
def collectResults {Payload : Type} (env : Env Payload) (o : MultiAgentOrchestrator) :
    List (TaskReq Payload) → Except PyExn (List (AgentResult × List SpawnCall))
  | [] => .ok []
  | t :: rest =>
      match spawn_agent env o t.agent t.data with
      | .error e => .error e
      | .ok x =>
          match collectResults env o rest with
          | .error e => .error e
          | .ok xs => .ok (x :: xs)

/-- `orchestrate_parallel` (lines 69-85).  Constructing
`ThreadPoolExecutor` with `max_workers = min(len(tasks), 4) = 0` raises
`ValueError`; otherwise every submitted task runs through
`spawn_agent`, the results are collected in completion order
(`env.sched` of the submission order) and each is appended to
`self.results`.  Returns (results, updated orchestrator, spawn log). -/
def orchestrate_parallel {Payload : Type} (env : Env Payload)
    (o : MultiAgentOrchestrator) (tasks : List (TaskReq Payload)) :
    Except PyExn (List AgentResult × MultiAgentOrchestrator × List SpawnCall) :=
  if max_workers tasks.length = 0 then
    .error (.valueError "max_workers must be greater than 0")
  else
    match collectResults env o (env.sched tasks) with
    | .error e => .error e
    | .ok outs =>
        .ok (outs.map Prod.fst,
             { o with results := o.results ++ outs.map Prod.fst },
             (outs.map Prod.snd).flatten)

/-- JSON-like task payloads, the shape of the dictionaries the source
passes as `task_data`. -/
inductive JVal where
  | str (s : String)
  | num (n : Int)
  | arr (xs : List JVal)
  | obj (fields : List (String × JVal))

/-- The single planning-phase batch of `run_feature_pipeline`
(lines 92-95). -/
def planning_tasks (feature_request workspace : String) : List (TaskReq JVal) :=
  [⟨"planner", .obj [("request", .str feature_request), ("workspace", .str workspace)]⟩]

/-- The fixed implementation-phase batch of `run_feature_pipeline`
(lines 103-107). -/
def implementation_tasks : List (TaskReq JVal) :=
  [⟨"refactor", .obj [("target", .str "code_quality")]⟩,
   ⟨"test_gen", .obj [("coverage_target", .num 80)]⟩,
   ⟨"doc_gen", .obj [("format", .str "markdown")]⟩]

/-- The review-phase batch of `run_feature_pipeline` (lines 112-115):
its payload references the artifacts of the implementation results. -/
def review_tasks (impl_results : List AgentResult) : List (TaskReq JVal) :=
  [⟨"reviewer",
    .obj [("artifacts", .arr (impl_results.map (fun r => .arr (r.artifacts.map .str))))]⟩]

/-- `run_feature_pipeline` (lines 87-126).  Besides the boolean the
source returns, the embedding also returns the updated orchestrator
state and the list of all task requests dispatched (the
instrumentation needed to state the phase-gating claims). -/
def run_feature_pipeline (env : Env JVal) (o : MultiAgentOrchestrator)
    (feature_request : String) :
    Except PyExn (Bool × MultiAgentOrchestrator × List (TaskReq JVal)) :=
  match orchestrate_parallel env o (planning_tasks feature_request o.workspace_path) with
  | .error e => .error e
  | .ok (planning_results, o1, _) =>
      if planning_results.all (fun r => r.success) then
        match orchestrate_parallel env o1 implementation_tasks with
        | .error e => .error e
        | .ok (impl_results, o2, _) =>
            match orchestrate_parallel env o2 (review_tasks impl_results) with
            | .error e => .error e
            | .ok (review_results, o3, _) =>
                .ok ((impl_results ++ review_results).all (fun r => r.success), o3,
                     planning_tasks feature_request o.workspace_path ++
                       implementation_tasks ++ review_tasks impl_results)
      else
        .ok (false, o1, planning_tasks feature_request o.workspace_path)

/-- The dictionary returned by `get_summary` (lines 133-145); the
per-result sub-dictionaries keep agent name and success flag (their
wall-clock timestamps are omitted). -/
structure Summary where
  total_agents : Nat
  successful : Nat
  failed : Nat
  success_rate : Rat
  results : List (String × Bool)
deriving Repr, DecidableEq

/-- `get_summary` (lines 128-145): totals over `self.results`, with
`success_rate = successful / total * 100` guarded by `total > 0`. -/
def get_summary (o : MultiAgentOrchestrator) : Summary :=
  { total_agents := o.results.length
    successful := (o.results.filter (fun r => r.success)).length
    failed := o.results.length - (o.results.filter (fun r => r.success)).length
    success_rate :=
      if 0 < o.results.length then
        ((o.results.filter (fun r => r.success)).length : Rat)
          / (o.results.length : Rat) * 100
      else 0
    results := o.results.map (fun r => (r.agent_name, r.success)) }

/-- The caller-facing operations of a `MultiAgentOrchestrator`
instance, for stating history invariants over operation sequences. -/
inductive Op (Payload : Type) where
  | register (name script_path description : String)
  | spawn (agent_name : String) (task_data : Payload)
  | orchestrate (tasks : List (TaskReq Payload))
  | summary

/-- One operation applied to the orchestrator state.  The returned
number counts the Process Runner invocations completed during the
operation: one per `spawn_agent` call (each such call terminates and
produces an `AgentResult`). -/
def execOp {Payload : Type} (env : Env Payload) (o : MultiAgentOrchestrator) :
    Op Payload → Except PyExn (MultiAgentOrchestrator × Nat)
  | .register name script_path description =>
      .ok (register_agent env.fs o name script_path description, 0)
  | .spawn agent_name task_data =>
      match spawn_agent env o agent_name task_data with
      | .error e => .error e
      | .ok _ => .ok (o, 1)
  | .orchestrate tasks =>
      match orchestrate_parallel env o tasks with
      | .error e => .error e
      | .ok (_, o2, _) => .ok (o2, (env.sched tasks).length)
  | .summary =>
      .ok (o, 0)

/-- A sequence of operations, threading state and accumulating the
count of completed Process Runner invocations. -/
def runOps {Payload : Type} (env : Env Payload) (o : MultiAgentOrchestrator) :
    List (Op Payload) → Except PyExn (MultiAgentOrchestrator × Nat)
  | [] => .ok (o, 0)
  | op :: rest =>
      match execOp env o op with
      | .error e => .error e
      | .ok (o1, c1) =>
          match runOps env o1 rest with
          | .error e => .error e
          | .ok (o2, c2) => .ok (o2, c1 + c2)

/-- State of the `ThreadPoolExecutor` worker pool of
`orchestrate_parallel` during one batch: indices of tasks not yet
started, currently executing in a worker thread, and completed. -/
structure PoolState where
  pending : List Nat
  running : List Nat
  done : List Nat
deriving Repr, DecidableEq

/-- All `n` submitted tasks start pending. -/
def initPool (n : Nat) : PoolState := ⟨List.range n, [], []⟩

/-- One scheduling step of a pool with `w` worker threads: a pending
task may start only while fewer than `w` tasks are running (each of
the `w` threads blocks on one child process at a time); any running
task may finish. -/
inductive PoolStep (w : Nat) : PoolState → PoolState → Prop where
  | start (i : Nat) (pending running done : List Nat)
      (hw : running.length < w) :
      PoolStep w ⟨i :: pending, running, done⟩ ⟨pending, i :: running, done⟩
  | finish (i : Nat) (pending r1 r2 done : List Nat) :
      PoolStep w ⟨pending, r1 ++ i :: r2, done⟩ ⟨pending, r1 ++ r2, i :: done⟩

/-- Reflexive-transitive closure of `PoolStep`. -/
inductive PoolReach (w : Nat) : PoolState → PoolState → Prop where
  | refl (s : PoolState) : PoolReach w s s
  | step {s t u : PoolState} :
      PoolReach w s t → PoolStep w t u → PoolReach w s u

/-- Modelled from the spec: the claimed output rule for a non-zero
child exit, "captured stderr, falling back to the captured stdout when
stderr is empty" — stated for comparison against the code's actual
rule in `spawn_agent`, which the counterexample shows differs. -/
def specFallbackOutput (stdout stderr : String) : String :=
  if stderr = "" then stdout else stderr

/-- A concrete environment whose every subprocess invocation has the
given outcome; every path exists, serialization is the constant string
"payload", completion order is submission order. -/
def probeEnv (out : ProcOutcome) : Env JVal :=
  ⟨fun _ => true, fun _ _ => out, fun _ => "payload", id⟩

/-- A concrete environment where no path exists on disk. -/
def noneEnv : Env JVal :=
  ⟨fun _ => false, fun _ _ => .exits 0 "" "", fun _ => "payload", id⟩

/-- A freshly constructed orchestrator: empty registry, empty
history. -/
def oEmpty : MultiAgentOrchestrator := ⟨".", [], []⟩

/-- An orchestrator with one available agent "a". -/
def oSingle : MultiAgentOrchestrator := ⟨".", [("a", ⟨"a.py", "demo", true⟩)], []⟩

/-- An orchestrator with the five pipeline agents registered and
available. -/
def oAll : MultiAgentOrchestrator :=
  ⟨".",
   [("planner", ⟨"planner.py", "", true⟩),
    ("refactor", ⟨"refactor.py", "", true⟩),
    ("test_gen", ⟨"test_gen.py", "", true⟩),
    ("doc_gen", ⟨"doc_gen.py", "", true⟩),
    ("reviewer", ⟨"reviewer.py", "", true⟩)],
   []⟩

/-- An orchestrator whose history holds one success and one failure. -/
def oHist : MultiAgentOrchestrator :=
  ⟨".", [], [⟨"a", true, "ok", []⟩, ⟨"b", false, "bad", []⟩]⟩

/-- Every call to `spawn_agent` returns normally: no constructor of
`ProcOutcome` and no registry state reaches the `.error` case. -/
theorem spawn_agent_isOk {Payload : Type} (env : Env Payload)
    (o : MultiAgentOrchestrator) (agent_name : String) (task_data : Payload) :
    ∃ r : AgentResult × List SpawnCall,
      spawn_agent env o agent_name task_data = .ok r := by
  unfold spawn_agent
  cases lookupAgent o.agents agent_name with
  | none => exact ⟨_, rfl⟩
  | some agent_info =>
      by_cases h : agent_info.active
      · simp only [h, if_true]
        cases hb : spawnTryBody env.proc agent_info.script (env.dumps task_data) agent_name with
        | ok r => exact ⟨_, rfl⟩
        | error e =>
            cases e with
            | timeoutExpired m => exact ⟨_, rfl⟩
            | valueError m => exact ⟨_, rfl⟩
            | otherExc m => exact ⟨_, rfl⟩
      · simp only [h, if_false]
        exact ⟨_, rfl⟩

/-- The collection loop never raises, because `spawn_agent` never
does. -/
theorem collectResults_isOk {Payload : Type} (env : Env Payload)
    (o : MultiAgentOrchestrator) (tasks : List (TaskReq Payload)) :
    ∃ xs, collectResults env o tasks = .ok xs := by
  induction tasks with
  | nil => exact ⟨[], rfl⟩
  | cons t rest ih =>
      obtain ⟨x, hx⟩ := spawn_agent_isOk env o t.agent t.data
      obtain ⟨xs, hxs⟩ := ih
      exact ⟨x :: xs, by simp [collectResults, hx, hxs]⟩

/-- Every `subprocess.run` call recorded by `spawn_agent` passes
`timeout=60`. -/
theorem spawn_agent_log_timeout {Payload : Type} (env : Env Payload)
    (o : MultiAgentOrchestrator) (agent_name : String) (task_data : Payload)
    (r : AgentResult) (log : List SpawnCall)
    (h : spawn_agent env o agent_name task_data = .ok (r, log)) :
    ∀ c ∈ log, c.timeoutSeconds = 60 := by
  unfold spawn_agent at h
  cases hl : lookupAgent o.agents agent_name with
  | none =>
      rw [hl] at h
      obtain ⟨-, h2⟩ := Prod.mk.injEq .. ▸ Except.ok.inj h
      subst h2; intro c hc; cases hc
  | some agent_info =>
      rw [hl] at h
      by_cases ha : agent_info.active
      · simp only [ha, if_true] at h
        cases hb : spawnTryBody env.proc agent_info.script (env.dumps task_data) agent_name with
        | ok r2 =>
            rw [hb] at h
            obtain ⟨-, h2⟩ := Prod.mk.injEq .. ▸ Except.ok.inj h
            subst h2; intro c hc
            simp only [List.mem_singleton] at hc; subst hc; rfl
        | error e =>
            rw [hb] at h
            cases e with
            | timeoutExpired m =>
                obtain ⟨-, h2⟩ := Prod.mk.injEq .. ▸ Except.ok.inj h
                subst h2; intro c hc
                simp only [List.mem_singleton] at hc; subst hc; rfl
            | valueError m =>
                obtain ⟨-, h2⟩ := Prod.mk.injEq .. ▸ Except.ok.inj h
                subst h2; intro c hc
                simp only [List.mem_singleton] at hc; subst hc; rfl
            | otherExc m =>
                obtain ⟨-, h2⟩ := Prod.mk.injEq .. ▸ Except.ok.inj h
                subst h2; intro c hc
                simp only [List.mem_singleton] at hc; subst hc; rfl
      · simp only [ha, if_false] at h
        obtain ⟨-, h2⟩ := Prod.mk.injEq .. ▸ Except.ok.inj h
        subst h2; intro c hc; cases hc

/-- Every `subprocess.run` call recorded across a collection loop
passes `timeout=60`. -/
theorem collectResults_log_timeout {Payload : Type} (env : Env Payload)
    (o : MultiAgentOrchestrator) (tasks : List (TaskReq Payload))
    (xs : List (AgentResult × List SpawnCall))
    (h : collectResults env o tasks = .ok xs) :
    ∀ x ∈ xs, ∀ c ∈ x.2, c.timeoutSeconds = 60 := by
  induction tasks generalizing xs with
  | nil =>
      unfold collectResults at h
      cases Except.ok.inj h
      intro x hx; cases hx
  | cons t rest ih =>
      unfold collectResults at h
      cases hs : spawn_agent env o t.agent t.data with
      | error e => rw [hs] at h; cases h
      | ok x =>
          rw [hs] at h
          cases hc : collectResults env o rest with
          | error e => rw [hc] at h; cases h
          | ok tailXs =>
              rw [hc] at h
              cases Except.ok.inj h
              intro y hy
              rcases List.mem_cons.mp hy with hy | hy
              · subst hy
                exact spawn_agent_log_timeout env o t.agent t.data y.1 y.2 (by rw [hs])
              · exact ih tailXs hc y hy

/-- Claim C1: for every agent name, payload, registry state and process
outcome (unregistered, registered-but-unavailable, launch raises, child
times out, child exits non-zero, child exits zero), the Process Runner
`spawn_agent` returns an `AgentResult` and never propagates an
exception to its caller. -/
theorem claim_C1_run_never_raises {Payload : Type} (env : Env Payload)
    (o : MultiAgentOrchestrator) (agent_name : String) (task_data : Payload) :
    ∃ r : AgentResult × List SpawnCall,
      spawn_agent env o agent_name task_data = .ok r :=
  spawn_agent_isOk env o agent_name task_data

/-- Claim C2: for every feature description, if the single
planning-phase task's result is not successful, `run_feature_pipeline`
returns false, and the dispatched-task trace holds exactly the planning
task: no implementation-phase or review-phase task is ever
dispatched. -/
theorem claim_C2_planning_failure_halts (env : Env JVal) (o : MultiAgentOrchestrator)
    (feature_request : String) (planning_results : List AgentResult)
    (o1 : MultiAgentOrchestrator) (l1 : List SpawnCall)
    (hplan : orchestrate_parallel env o (planning_tasks feature_request o.workspace_path)
       = .ok (planning_results, o1, l1))
    (hfail : planning_results.all (fun r => r.success) = false) :
    run_feature_pipeline env o feature_request
      = .ok (false, o1, planning_tasks feature_request o.workspace_path) := by
  unfold run_feature_pipeline
  rw [hplan]
  simp only [hfail, Bool.false_eq_true, if_false]

/-- Witness for C2: with an empty registry the planner task fails, the
pipeline returns false and only the planning task was dispatched. -/
theorem claim_C2_witness :
    run_feature_pipeline noneEnv oEmpty "add dark mode"
      = .ok (false,
             ⟨".", [], [⟨"planner", false, "Agent planner not registered", []⟩]⟩,
             planning_tasks "add dark mode" ".") :=
  claim_C2_planning_failure_halts noneEnv oEmpty "add dark mode"
    [⟨"planner", false, "Agent planner not registered", []⟩]
    ⟨".", [], [⟨"planner", false, "Agent planner not registered", []⟩]⟩
    [] rfl rfl

/-- Claim C3: when the planning phase succeeds, the review-phase task
is dispatched no matter how the three implementation results came out,
and the returned boolean is the conjunction of the success flags of all
implementation-phase and review-phase results. -/
theorem claim_C3_review_always_runs (env : Env JVal) (o : MultiAgentOrchestrator)
    (feature_request : String)
    (planning_results impl_results review_results : List AgentResult)
    (o1 o2 o3 : MultiAgentOrchestrator) (l1 l2 l3 : List SpawnCall)
    (hplan : orchestrate_parallel env o (planning_tasks feature_request o.workspace_path)
       = .ok (planning_results, o1, l1))
    (hps : planning_results.all (fun r => r.success) = true)
    (himpl : orchestrate_parallel env o1 implementation_tasks = .ok (impl_results, o2, l2))
    (hrev : orchestrate_parallel env o2 (review_tasks impl_results)
       = .ok (review_results, o3, l3)) :
    run_feature_pipeline env o feature_request
      = .ok ((impl_results.all (fun r => r.success)
                && review_results.all (fun r => r.success)),
             o3,
             planning_tasks feature_request o.workspace_path ++ implementation_tasks
               ++ review_tasks impl_results) := by
  unfold run_feature_pipeline
  simp only [hplan, hps, if_true]
  simp only [himpl]
  simp only [hrev, List.all_append]

/-- Witness for C3: all five agents available and succeeding; the
pipeline dispatches all three phases and returns true. -/
theorem claim_C3_witness :
    run_feature_pipeline (probeEnv (.exits 0 "out" "")) oAll "add dark mode"
      = .ok (true,
             ⟨".", oAll.agents,
              [⟨"planner", true, "out", []⟩,
               ⟨"refactor", true, "out", []⟩,
               ⟨"test_gen", true, "out", []⟩,
               ⟨"doc_gen", true, "out", []⟩,
               ⟨"reviewer", true, "out", []⟩]⟩,
             planning_tasks "add dark mode" "." ++ implementation_tasks
               ++ review_tasks
                    [⟨"refactor", true, "out", []⟩,
                     ⟨"test_gen", true, "out", []⟩,
                     ⟨"doc_gen", true, "out", []⟩]) :=
  claim_C3_review_always_runs (probeEnv (.exits 0 "out" "")) oAll "add dark mode"
    [⟨"planner", true, "out", []⟩]
    [⟨"refactor", true, "out", []⟩, ⟨"test_gen", true, "out", []⟩,
     ⟨"doc_gen", true, "out", []⟩]
    [⟨"reviewer", true, "out", []⟩]
    ⟨".", oAll.agents, [⟨"planner", true, "out", []⟩]⟩
    ⟨".", oAll.agents,
     [⟨"planner", true, "out", []⟩, ⟨"refactor", true, "out", []⟩,
      ⟨"test_gen", true, "out", []⟩, ⟨"doc_gen", true, "out", []⟩]⟩
    ⟨".", oAll.agents,
     [⟨"planner", true, "out", []⟩, ⟨"refactor", true, "out", []⟩,
      ⟨"test_gen", true, "out", []⟩, ⟨"doc_gen", true, "out", []⟩,
      ⟨"reviewer", true, "out", []⟩]⟩
    [⟨"planner.py", "payload", 60⟩]
    [⟨"refactor.py", "payload", 60⟩, ⟨"test_gen.py", "payload", 60⟩,
     ⟨"doc_gen.py", "payload", 60⟩]
    [⟨"reviewer.py", "payload", 60⟩]
    rfl rfl rfl rfl

/-- Claim C10: `orchestrate_parallel` on the empty batch raises
`ValueError` (the worker pool is built with `min(0, 4) = 0` workers)
instead of returning an empty result list, and on every non-empty
batch it returns normally. -/
theorem claim_C10_empty_batch_raises {Payload : Type} (env : Env Payload)
    (o : MultiAgentOrchestrator) :
    orchestrate_parallel env o ([] : List (TaskReq Payload))
      = .error (.valueError "max_workers must be greater than 0")
    ∧ ∀ tasks : List (TaskReq Payload), tasks ≠ [] →
        exceptOk (orchestrate_parallel env o tasks) = true := by
  constructor
  · rfl
  · intro tasks ht
    unfold orchestrate_parallel
    have hlen : tasks.length ≠ 0 := by
      cases tasks with
      | nil => exact absurd rfl ht
      | cons a l => simp
    have hmw : ¬ max_workers tasks.length = 0 := by
      unfold max_workers; omega
    rw [if_neg hmw]
    obtain ⟨xs, hxs⟩ := collectResults_isOk env o (env.sched tasks)
    rw [hxs]
    rfl

/-- Witness for C10: the empty batch raises, a singleton batch
returns normally. -/
theorem claim_C10_witness :
    orchestrate_parallel (probeEnv (.exits 0 "ok" "")) oSingle ([] : List (TaskReq JVal))
      = .error (.valueError "max_workers must be greater than 0")
    ∧ exceptOk (orchestrate_parallel (probeEnv (.exits 0 "ok" "")) oSingle
        [⟨"a", JVal.obj []⟩]) = true :=
  ⟨(claim_C10_empty_batch_raises (probeEnv (.exits 0 "ok" "")) oSingle).1,
   (claim_C10_empty_batch_raises (probeEnv (.exits 0 "ok" "")) oSingle).2
     [⟨"a", JVal.obj []⟩] (by simp)⟩

/-- A history splits into its successful and failed entries. -/
theorem length_filter_success_split (l : List AgentResult) :
    (l.filter (fun r => r.success)).length
      + (l.filter (fun r => !r.success)).length = l.length := by
  induction l with
  | nil => rfl
  | cons a t ih =>
      cases h : a.success <;>
        simp [List.filter_cons, h, ← ih] <;> omega

/-- Claim C4: for a history of `k` successful and `m` failed results,
`get_summary` reports `total = k+m`, `successful = k`, `failed = m`
and `success_rate = 100*k/(k+m)` (0 when `k+m = 0`), and computing the
summary leaves the orchestrator state untouched. -/
theorem claim_C4_summary_counts (o : MultiAgentOrchestrator) (env : Env JVal) (k m : Nat)
    (hk : (o.results.filter (fun r => r.success)).length = k)
    (hm : (o.results.filter (fun r => !r.success)).length = m) :
    get_summary o =
      { total_agents := k + m
        successful := k
        failed := m
        success_rate :=
          if 0 < k + m then 100 * (k : Rat) / ((k : Rat) + (m : Rat)) else 0
        results := o.results.map (fun r => (r.agent_name, r.success)) }
      ∧ execOp env o .summary = .ok (o, 0) := by
  refine ⟨?_, rfl⟩
  have htot : o.results.length = k + m := by
    rw [← length_filter_success_split o.results, hk, hm]
  unfold get_summary
  rw [htot, hk]
  rw [Summary.mk.injEq]
  refine ⟨rfl, rfl, by omega, ?_, rfl⟩
  split_ifs with hpos
  · push_cast
    ring
  · rfl

/-- Witness for C4: a history with one success and one failure gives
total 2, one of each, rate 100*1/(1+1) = 50. -/
theorem claim_C4_witness :
    get_summary oHist =
      { total_agents := 2
        successful := 1
        failed := 1
        success_rate := if 0 < 1 + 1 then 100 * (1 : Rat) / ((1 : Rat) + (1 : Rat)) else 0
        results := [("a", true), ("b", false)] }
      ∧ execOp (probeEnv (.exits 0 "" "")) oHist .summary = .ok (oHist, 0) :=
  claim_C4_summary_counts oHist (probeEnv (.exits 0 "" "")) 1 1 rfl rfl

/-- A dict write is visible to a lookup of the same key. -/
theorem lookupAgent_setAgent (m : List (String × AgentInfo)) (k : String) (v : AgentInfo) :
    lookupAgent (setAgent m k v) k = some v := by
  induction m with
  | nil => simp [setAgent, lookupAgent]
  | cons p rest ih =>
      obtain ⟨k2, v2⟩ := p
      by_cases h : k2 = k
      · simp [setAgent, lookupAgent, h]
      · simp [setAgent, lookupAgent, h, ih]

/-- Claim C5: registering an agent whose executable path does not
exist stores `active = false` (existence is computed once, at
registration time), and any dispatch to an agent whose stored record is
inactive returns the script-not-found failure with an empty spawn log:
the process-spawn branch is never reached. -/
theorem claim_C5_unavailable_never_spawns {Payload : Type} (env : Env Payload)
    (o : MultiAgentOrchestrator) (name script_path description : String)
    (hfs : env.fs script_path = false) :
    lookupAgent (register_agent env.fs o name script_path description).agents name
      = some ⟨script_path, description, false⟩
    ∧ ∀ (o3 : MultiAgentOrchestrator) (info : AgentInfo),
        lookupAgent o3.agents name = some info → info.active = false →
        ∀ task_data : Payload,
          spawn_agent env o3 name task_data
            = .ok (⟨name, false, "Agent script " ++ info.script ++ " not found", []⟩,
                   []) := by
  constructor
  · simpa [register_agent, hfs] using
      lookupAgent_setAgent o.agents name ⟨script_path, description, env.fs script_path⟩
  · intro o3 info hlk hact task_data
    unfold spawn_agent
    rw [hlk]
    simp only [hact, Bool.false_eq_true, if_false]

/-- Witness for C5: register "ghost" at a missing path, then dispatch
to it: the stored record is inactive and the dispatch short-circuits
with no spawn. -/
theorem claim_C5_witness :
    spawn_agent noneEnv (register_agent noneEnv.fs oEmpty "ghost" "ghost.py" "missing")
        "ghost" (JVal.obj [])
      = .ok (⟨"ghost", false, "Agent script ghost.py not found", []⟩, []) :=
  (claim_C5_unavailable_never_spawns noneEnv oEmpty "ghost" "ghost.py" "missing" rfl).2
    (register_agent noneEnv.fs oEmpty "ghost" "ghost.py" "missing")
    ⟨"ghost.py", "missing", false⟩
    (claim_C5_unavailable_never_spawns noneEnv oEmpty "ghost" "ghost.py" "missing" rfl).1
    rfl (JVal.obj [])

/-- Counterexample for C6: a child that exits 1 with stdout "hello"
and empty stderr yields `output = ""`, not the spec's fallback value
"hello": `spawn_agent` has no stdout fallback. -/
theorem claim_C6_counterexample :
    spawn_agent (probeEnv (.exits 1 "hello" "")) oSingle "a" (JVal.obj [])
      = .ok (⟨"a", false, "", []⟩, [⟨"a.py", "payload", 60⟩])
    ∧ specFallbackOutput "hello" "" = "hello"
    ∧ ("" : String) ≠ "hello" :=
  ⟨rfl, rfl, by decide⟩

/-- Claim C6 as amended: on a non-zero child exit the result has
`success = false` and `output` equal to the captured stderr
unconditionally — the empty stderr is not replaced by stdout. -/
theorem claim_C6_amended_nonzero_exit {Payload : Type} (env : Env Payload)
    (o : MultiAgentOrchestrator) (agent_name : String) (info : AgentInfo)
    (task_data : Payload) (rc : Int) (stdout stderr : String)
    (hlk : lookupAgent o.agents agent_name = some info)
    (hact : info.active = true)
    (hproc : env.proc info.script (env.dumps task_data) = .exits rc stdout stderr)
    (hrc : rc ≠ 0) :
    spawn_agent env o agent_name task_data
      = .ok (⟨agent_name, false, stderr, []⟩,
             [⟨info.script, env.dumps task_data, 60⟩]) := by
  unfold spawn_agent
  rw [hlk]
  simp only [hact, if_true]
  unfold spawnTryBody
  simp only [hproc]
  rw [if_neg hrc]

/-- Witness for the amended C6: exit code 1 with stderr "boom" gives
output "boom". -/
theorem claim_C6_amended_witness :
    spawn_agent (probeEnv (.exits 1 "out" "boom")) oSingle "a" (JVal.obj [])
      = .ok (⟨"a", false, "boom", []⟩, [⟨"a.py", "payload", 60⟩]) :=
  claim_C6_amended_nonzero_exit (probeEnv (.exits 1 "out" "boom")) oSingle "a"
    ⟨"a.py", "demo", true⟩ (JVal.obj []) 1 "out" "boom" rfl rfl rfl (by decide)

/-- Counterexample for C7: a dispatcher-internal batch task runs
`subprocess.run` with `timeout=60`, not the claimed 30, and a timed-out
run yields output "Agent execution timeout", not the claimed
"execution timeout". -/
theorem claim_C7_counterexample :
    orchestrate_parallel (probeEnv (.exits 0 "ok" "")) oSingle [⟨"a", JVal.obj []⟩]
      = .ok ([⟨"a", true, "ok", []⟩],
             ⟨".", [("a", ⟨"a.py", "demo", true⟩)], [⟨"a", true, "ok", []⟩]⟩,
             [⟨"a.py", "payload", 60⟩])
    ∧ (60 : Nat) ≠ 30
    ∧ spawn_agent (probeEnv .timesOut) oSingle "a" (JVal.obj [])
        = .ok (⟨"a", false, "Agent execution timeout", []⟩, [⟨"a.py", "payload", 60⟩])
    ∧ ("Agent execution timeout" : String) ≠ "execution timeout" :=
  ⟨rfl, by decide, rfl, by decide⟩

/-- Claim C7 as amended: the timeout is the hardwired literal 60 for
every `subprocess.run` call, in single dispatch and in
dispatcher-internal batch tasks alike (there is no per-call timeout
parameter and no 30-second call site), and a timed-out child yields a
failure whose output is "Agent execution timeout". -/
theorem claim_C7_amended_fixed_timeout {Payload : Type} (env : Env Payload)
    (o : MultiAgentOrchestrator) :
    (∀ (agent_name : String) (task_data : Payload) (r : AgentResult)
        (log : List SpawnCall),
        spawn_agent env o agent_name task_data = .ok (r, log) →
        ∀ c ∈ log, c.timeoutSeconds = 60)
    ∧ (∀ (tasks : List (TaskReq Payload)) (rs : List AgentResult)
          (o2 : MultiAgentOrchestrator) (log : List SpawnCall),
        orchestrate_parallel env o tasks = .ok (rs, o2, log) →
        ∀ c ∈ log, c.timeoutSeconds = 60)
    ∧ (∀ (agent_name : String) (info : AgentInfo) (task_data : Payload),
        lookupAgent o.agents agent_name = some info → info.active = true →
        env.proc info.script (env.dumps task_data) = .timesOut →
        spawn_agent env o agent_name task_data
          = .ok (⟨agent_name, false, "Agent execution timeout", []⟩,
                 [⟨info.script, env.dumps task_data, 60⟩])) := by
  refine ⟨fun a d r log h => spawn_agent_log_timeout env o a d r log h, ?_, ?_⟩
  · intro tasks rs o2 log h
    unfold orchestrate_parallel at h
    by_cases hmw : max_workers tasks.length = 0
    · rw [if_pos hmw] at h; cases h
    · rw [if_neg hmw] at h
      cases hc : collectResults env o (env.sched tasks) with
      | error e => rw [hc] at h; cases h
      | ok outs =>
          rw [hc] at h
          obtain ⟨-, -, hlog⟩ :=
            Prod.mk.injEq .. ▸ Prod.mk.injEq .. ▸ Except.ok.inj h
          subst hlog
          intro c hcmem
          obtain ⟨l2, hl2, hcl2⟩ := List.mem_flatten.mp hcmem
          obtain ⟨x, hx, hxl2⟩ := List.mem_map.mp hl2
          subst hxl2
          exact collectResults_log_timeout env o (env.sched tasks) outs hc x hx c hcl2
  · intro agent_name info task_data hlk hact hproc
    unfold spawn_agent
    rw [hlk]
    simp only [hact, if_true]
    unfold spawnTryBody
    simp only [hproc]

/-- Witness for the amended C7: an available agent that times out
yields the fixed failure result with a logged `timeout=60`. -/
theorem claim_C7_amended_witness :
    spawn_agent (probeEnv .timesOut) oSingle "a" (JVal.obj [])
      = .ok (⟨"a", false, "Agent execution timeout", []⟩, [⟨"a.py", "payload", 60⟩]) :=
  (claim_C7_amended_fixed_timeout (probeEnv .timesOut) oSingle).2.2 "a"
    ⟨"a.py", "demo", true⟩ (JVal.obj []) rfl rfl rfl

/-- Counterexample for C8: after registering an agent at a missing
path and calling the Process Runner (`spawn_agent`) directly, one
Process Runner invocation has completed but the result history is
still empty — `spawn_agent` itself never appends to `self.results`. -/
theorem claim_C8_counterexample :
    runOps noneEnv oEmpty [.register "a" "missing.py" "demo", .spawn "a" (JVal.obj [])]
      = .ok (⟨".", [("a", ⟨"missing.py", "demo", false⟩)], []⟩, 1)
    ∧ (⟨".", [("a", ⟨"missing.py", "demo", false⟩)], []⟩
         : MultiAgentOrchestrator).results.length = 0
    ∧ (0 : Nat) ≠ 1 :=
  ⟨rfl, rfl, by decide⟩

/-- Claim C8 as amended: every AgentResult returned by the Parallel
Dispatcher (`orchestrate_parallel`) is appended to the orchestrator's
result history — the new history is the old history followed by the
returned results — while a direct Process Runner (`spawn_agent`) call
completes one invocation without appending its result. -/
theorem claim_C8_amended_history_append {Payload : Type} (env : Env Payload)
    (o : MultiAgentOrchestrator) :
    (∀ (tasks : List (TaskReq Payload)) (rs : List AgentResult)
        (o2 : MultiAgentOrchestrator) (log : List SpawnCall),
        orchestrate_parallel env o tasks = .ok (rs, o2, log) →
        o2.results = o.results ++ rs)
    ∧ (∀ (agent_name : String) (task_data : Payload)
          (o2 : MultiAgentOrchestrator) (c : Nat),
        execOp env o (.spawn agent_name task_data) = .ok (o2, c) →
        o2 = o ∧ c = 1) := by
  constructor
  · intro tasks rs o2 log h
    unfold orchestrate_parallel at h
    by_cases hmw : max_workers tasks.length = 0
    · rw [if_pos hmw] at h; cases h
    · rw [if_neg hmw] at h
      cases hc : collectResults env o (env.sched tasks) with
      | error e => rw [hc] at h; cases h
      | ok outs =>
          rw [hc] at h
          obtain ⟨hrs, ho2, -⟩ :=
            Prod.mk.injEq .. ▸ Prod.mk.injEq .. ▸ Except.ok.inj h
          rw [← ho2, ← hrs]
  · intro agent_name task_data o2 c h
    simp only [execOp] at h
    cases hs : spawn_agent env o agent_name task_data with
    | error e => rw [hs] at h; cases h
    | ok x =>
        rw [hs] at h
        obtain ⟨h1, h2⟩ := Prod.mk.injEq .. ▸ Except.ok.inj h
        exact ⟨h1.symm, h2.symm⟩

/-- Witness for the amended C8: dispatching one successful task
appends exactly its result to the (empty) history. -/
theorem claim_C8_amended_witness :
    (⟨".", [("a", ⟨"a.py", "demo", true⟩)], [⟨"a", true, "ok", []⟩]⟩
       : MultiAgentOrchestrator).results
      = oSingle.results ++ [⟨"a", true, "ok", []⟩] :=
  (claim_C8_amended_history_append (probeEnv (.exits 0 "ok" "")) oSingle).1
    [⟨"a", JVal.obj []⟩] [⟨"a", true, "ok", []⟩]
    ⟨".", [("a", ⟨"a.py", "demo", true⟩)], [⟨"a", true, "ok", []⟩]⟩
    [⟨"a.py", "payload", 60⟩] rfl

/-- The number of running tasks never exceeds the pool width. -/
theorem poolReach_running_le (w : Nat) {s0 s : PoolState}
    (h : PoolReach w s0 s) (h0 : s0.running.length ≤ w) :
    s.running.length ≤ w := by
  induction h with
  | refl => exact h0
  | step hreach hstep ih =>
      cases hstep with
      | start i pending running done hw => simpa using hw
      | finish i pending r1 r2 done =>
          simp only [List.length_append, List.length_cons] at ih ⊢
          omega

/-- A pool run neither loses nor duplicates tasks: pending, running
and done always hold exactly the submitted indices. -/
theorem poolReach_perm (w n : Nat) {s : PoolState}
    (h : PoolReach w (initPool n) s) :
    (s.pending ++ s.running ++ s.done).Perm (List.range n) := by
  induction h with
  | refl => simp [initPool]
  | step hreach hstep ih =>
      refine List.Perm.trans ?_ ih
      cases hstep with
      | start i pending running done hw =>
          exact List.perm_middle.append_right done
      | finish i pending r1 r2 done =>
          exact List.perm_middle.trans
            ((((List.perm_middle.append_left pending).trans
                List.perm_middle).append_right done).symm)

/-- Claim C9: in the worker pool of a batch of `n` tasks
(`max_workers = min(n, 4)`), every reachable scheduler state has at
most `min(n, 4)` tasks in flight, and any state from which the
dispatcher can return (no pending, no running task) has completed
exactly the `n` submitted tasks. -/
theorem claim_C9_pool_bound (n : Nat) (s : PoolState)
    (h : PoolReach (max_workers n) (initPool n) s) :
    s.running.length ≤ min n 4
    ∧ (s.pending = [] → s.running = [] → s.done.Perm (List.range n)) := by
  constructor
  · exact poolReach_running_le (max_workers n) h (by simp [initPool])
  · intro hp hr
    have hperm := poolReach_perm (max_workers n) n h
    rw [hp, hr] at hperm
    simpa using hperm

/-- Witness for C9: a full run of a one-task batch — start the task,
finish it — stays within the bound and completes every task. -/
theorem claim_C9_witness :
    ([0] : List Nat).Perm (List.range 1)
    ∧ (⟨[], [], [0]⟩ : PoolState).running.length ≤ min 1 4 := by
  have h1 : PoolStep (max_workers 1) ⟨[0], [], []⟩ ⟨[], [0], []⟩ :=
    PoolStep.start 0 [] [] [] (by decide)
  have h2 : PoolStep (max_workers 1) ⟨[], [0], []⟩ ⟨[], [], [0]⟩ :=
    PoolStep.finish 0 [] [] [] []
  have hreach : PoolReach (max_workers 1) (initPool 1) ⟨[], [], [0]⟩ :=
    PoolReach.step (PoolReach.step (PoolReach.refl (initPool 1)) h1) h2
  exact ⟨(claim_C9_pool_bound 1 ⟨[], [], [0]⟩ hreach).2 rfl rfl,
         (claim_C9_pool_bound 1 ⟨[], [], [0]⟩ hreach).1⟩

end GringoOS
